import Mathlib

/-!
Shallow embedding of the WebPOS backend (models `Sale`, `Customer`,
`Supplier` and the services `SaleService`, `CustomerService`) and proofs
about it.

JavaScript numbers are modelled as exact rationals (`ℚ`), dates and
timestamps as integers (milliseconds).  A field that may be `undefined` /
`null` is modelled as an `Option`.  The pervasive JavaScript idiom
`x || d` (default on *falsy* values: `undefined`, `null`, `0`, `''`) is
modelled by the `jsOr*` helpers below; note that a present but zero number
and a present but empty string are falsy and hence replaced by the default.
-/

namespace WebPOS

/-- `x || d` for a possibly-absent number: falsy values (`undefined`,
`null`, `0`) are replaced by `d`. -/
def jsOrQ (x : Option ℚ) (d : ℚ) : ℚ :=
  match x with
  | none => d
  | some v => if v = 0 then d else v

/-- `x || d` for a possibly-absent integer (timestamps): `0` is falsy. -/
def jsOrInt (x : Option Int) (d : Int) : Int :=
  match x with
  | none => d
  | some v => if v = 0 then d else v

/-- `x || d` for a possibly-absent string: the empty string is falsy. -/
def jsOrStr (x : Option String) (d : String) : String :=
  match x with
  | none => d
  | some s => if s = "" then d else s

/-- `s.trim()`: strip leading and trailing whitespace (structurally
recursive so that concrete instances evaluate). -/
def jsTrim (s : String) : String :=
  ⟨((s.data.dropWhile Char.isWhitespace).reverse.dropWhile Char.isWhitespace).reverse⟩

/-- `x || null` for a possibly-absent number kept as nullable: a present
`0` is falsy and collapses to `null`. -/
def jsOrNullInt (x : Option Int) : Option Int :=
  match x with
  | none => none
  | some v => if v = 0 then none else some v

/-- `x || null` for a possibly-absent string kept as nullable: a present
`""` is falsy and collapses to `null`. -/
def jsOrNullStr (x : Option String) : Option String :=
  match x with
  | none => none
  | some s => if s = "" then none else some s

/-- A plain sale-item object as the caller (or the store) supplies it
inside `saleItems`; `subTotal` may be absent. -/
structure SaleItemV where
  mysqlId : Option Int := none
  productId : Option Int := none
  productName : Option String := none
  category : Option String := none
  quantity : ℚ := 0
  unitPrice : ℚ := 0
  subTotal : Option ℚ := none
deriving DecidableEq, Repr

/-- The `Sale` entity after construction (`src/models/Sale.js`,
constructor): every field has been defaulted. -/
structure Sale where
  id : Option String
  mysqlId : Option Int
  saleId : String
  customerId : Option Int
  customerContact : String
  saleItems : List SaleItemV
  subTotal : ℚ
  taxAmount : ℚ
  discountAmount : ℚ
  totalAmount : ℚ
  paidAmount : ℚ
  changeAmount : ℚ
  paymentMethod : String
  saleDate : Int
  timestamp : Int
deriving DecidableEq, Repr

/-- Raw constructor input (`new Sale(data)`): any field may be absent. -/
structure SaleData where
  id : Option String := none
  mysqlId : Option Int := none
  saleId : Option String := none
  customerId : Option Int := none
  customerContact : Option String := none
  saleItems : Option (List SaleItemV) := none
  subTotal : Option ℚ := none
  taxAmount : Option ℚ := none
  discountAmount : Option ℚ := none
  totalAmount : Option ℚ := none
  paidAmount : Option ℚ := none
  changeAmount : Option ℚ := none
  paymentMethod : Option String := none
  saleDate : Option Int := none
  timestamp : Option Int := none
deriving DecidableEq, Repr

/-- The `Sale` constructor (`Sale.js` lines 6–22).  `now` is the clock
value used for `new Date()` / `Date.now()` defaults.  A `Date` object is
always truthy in JavaScript, so `saleDate` (a `Date`) defaults only when
absent, whereas `timestamp` (a number) is also replaced when `0`. -/
def Sale.new (now : Int) (data : SaleData) : Sale where
  id := jsOrNullStr data.id
  mysqlId := jsOrNullInt data.mysqlId
  saleId := jsOrStr data.saleId ""
  customerId := jsOrNullInt data.customerId
  customerContact := jsOrStr data.customerContact ""
  saleItems := data.saleItems.getD []
  subTotal := jsOrQ data.subTotal 0
  taxAmount := jsOrQ data.taxAmount 0
  discountAmount := jsOrQ data.discountAmount 0
  totalAmount := jsOrQ data.totalAmount 0
  paidAmount := jsOrQ data.paidAmount 0
  changeAmount := jsOrQ data.changeAmount 0
  paymentMethod := jsOrStr data.paymentMethod ""
  saleDate := data.saleDate.getD now
  timestamp := jsOrInt data.timestamp now

/-- `Sale.create(data)` (`Sale.js` lines 29–46): re-packages the
recognized fields (dropping `id` and any caller `timestamp`) and calls the
constructor with `timestamp: Date.now()`. -/
def Sale.create (now : Int) (data : SaleData) : Sale :=
  Sale.new now
    { mysqlId := data.mysqlId
      saleId := data.saleId
      customerId := data.customerId
      customerContact := data.customerContact
      saleItems := some (data.saleItems.getD [])
      subTotal := some (jsOrQ data.subTotal 0)
      taxAmount := some (jsOrQ data.taxAmount 0)
      discountAmount := some (jsOrQ data.discountAmount 0)
      totalAmount := some (jsOrQ data.totalAmount 0)
      paidAmount := some (jsOrQ data.paidAmount 0)
      changeAmount := some (jsOrQ data.changeAmount 0)
      paymentMethod := data.paymentMethod
      saleDate := some (data.saleDate.getD now)
      timestamp := some now }

/-- One item's contribution inside `calculateTotals`:
`item.subTotal || (item.quantity * item.unitPrice)`. -/
def itemContribution (it : SaleItemV) : ℚ :=
  jsOrQ it.subTotal (it.quantity * it.unitPrice)

/-- `sale.calculateTotals()` (`Sale.js` lines 119–130), functionally: the
three derived fields are overwritten, everything else kept. -/
def Sale.calculateTotals (s : Sale) : Sale :=
  let sub := s.saleItems.foldl (fun acc it => acc + itemContribution it) 0
  let total := sub + s.taxAmount - s.discountAmount
  { s with
    subTotal := sub
    totalAmount := total
    changeAmount := s.paidAmount - total }

/-- The `{isValid, errors}` object returned by the validators. -/
structure ValidationResult where
  isValid : Bool
  errors : List String
deriving DecidableEq, Repr

/-- `sale.validate()` (`Sale.js` lines 136–159).  `!this.saleId ||
this.saleId.trim() === ''` holds exactly when the string trims to empty
(the falsy string is `''`, which trims to itself). -/
def Sale.validate (s : Sale) : ValidationResult :=
  let errors :=
    (if jsTrim s.saleId = "" then ["Sale ID is required"] else []) ++
    (if s.saleItems.isEmpty then ["Sale must have at least one item"] else []) ++
    (if s.totalAmount < 0 then ["Total amount cannot be negative"] else []) ++
    (if s.paidAmount < s.totalAmount then
      ["Paid amount must be greater than or equal to total amount"] else [])
  { isValid := errors.isEmpty, errors := errors }

/-- The MongoDB document shape produced by `Sale#toDocument` and read by
`Sale.fromDocument`.  `_id` is absent from `toDocument`'s output and only
present on documents coming back from the store. -/
structure SaleDoc where
  idField : Option String := none
  mysqlId : Option Int
  saleId : String
  customerId : Option Int
  customerContact : String
  saleItems : List SaleItemV
  subTotal : ℚ
  taxAmount : ℚ
  discountAmount : ℚ
  totalAmount : ℚ
  paidAmount : ℚ
  changeAmount : ℚ
  paymentMethod : String
  saleDate : Int
  timestamp : Int
deriving DecidableEq, Repr

/-- `sale.toDocument()` (`Sale.js` lines 52–71).  The embedded items are
plain objects (no `toDocument` method), so the item map is the identity;
no `_id` key is emitted. -/
def Sale.toDocument (s : Sale) : SaleDoc where
  idField := none
  mysqlId := s.mysqlId
  saleId := s.saleId
  customerId := s.customerId
  customerContact := s.customerContact
  saleItems := s.saleItems
  subTotal := s.subTotal
  taxAmount := s.taxAmount
  discountAmount := s.discountAmount
  totalAmount := s.totalAmount
  paidAmount := s.paidAmount
  changeAmount := s.changeAmount
  paymentMethod := s.paymentMethod
  saleDate := s.saleDate
  timestamp := s.timestamp

/-- `Sale.fromDocument(doc)` (`Sale.js` lines 78–96): feeds the document's
fields back through the constructor (so constructor defaults apply again). -/
def Sale.fromDocument (now : Int) (doc : SaleDoc) : Sale :=
  Sale.new now
    { id := doc.idField
      mysqlId := doc.mysqlId
      saleId := some doc.saleId
      customerId := doc.customerId
      customerContact := some doc.customerContact
      saleItems := some doc.saleItems
      subTotal := some doc.subTotal
      taxAmount := some doc.taxAmount
      discountAmount := some doc.discountAmount
      totalAmount := some doc.totalAmount
      paidAmount := some doc.paidAmount
      changeAmount := some doc.changeAmount
      paymentMethod := some doc.paymentMethod
      saleDate := some doc.saleDate
      timestamp := some doc.timestamp }

/-- The `Customer` entity (`src/models/Customer.js`). -/
structure Customer where
  id : Option String
  mysqlId : Option Int
  saleId : Option String
  contact : String
  email : String
  createdDate : Int
  timestamp : Int
deriving DecidableEq, Repr

/-- Raw input for the `Customer` constructor. -/
structure CustomerData where
  id : Option String := none
  mysqlId : Option Int := none
  saleId : Option String := none
  contact : Option String := none
  email : Option String := none
  createdDate : Option Int := none
  timestamp : Option Int := none
deriving DecidableEq, Repr

/-- The `Customer` constructor (`Customer.js` lines 6–14). -/
def Customer.new (now : Int) (data : CustomerData) : Customer where
  id := jsOrNullStr data.id
  mysqlId := jsOrNullInt data.mysqlId
  saleId := jsOrNullStr data.saleId
  contact := jsOrStr data.contact ""
  email := jsOrStr data.email ""
  createdDate := data.createdDate.getD now
  timestamp := jsOrInt data.timestamp now

/-- The document shape of `Customer#toDocument` / `Customer.fromDocument`. -/
structure CustomerDoc where
  idField : Option String := none
  mysqlId : Option Int
  saleId : Option String
  contact : String
  email : String
  createdDate : Int
  timestamp : Int
deriving DecidableEq, Repr

/-- `customer.toDocument()` (`Customer.js` lines 36–45): no `_id` key. -/
def Customer.toDocument (c : Customer) : CustomerDoc where
  idField := none
  mysqlId := c.mysqlId
  saleId := c.saleId
  contact := c.contact
  email := c.email
  createdDate := c.createdDate
  timestamp := c.timestamp

/-- `Customer.fromDocument(doc)` (`Customer.js` lines 52–62). -/
def Customer.fromDocument (now : Int) (doc : CustomerDoc) : Customer :=
  Customer.new now
    { id := doc.idField
      mysqlId := doc.mysqlId
      saleId := doc.saleId
      contact := some doc.contact
      email := some doc.email
      createdDate := some doc.createdDate
      timestamp := some doc.timestamp }

/-- The `Supplier` entity (`src/models/Supplier.js`). -/
structure Supplier where
  id : Option String
  mysqlId : Option Int
  name : String
  contact : String
  contactPerson : String
  phone : String
  email : String
  address : String
  createdDate : Int
  timestamp : Int
deriving DecidableEq, Repr

/-- Raw input for the `Supplier` constructor. -/
structure SupplierData where
  id : Option String := none
  mysqlId : Option Int := none
  name : Option String := none
  contact : Option String := none
  contactPerson : Option String := none
  phone : Option String := none
  email : Option String := none
  address : Option String := none
  createdDate : Option Int := none
  timestamp : Option Int := none
deriving DecidableEq, Repr

/-- The `Supplier` constructor (`Supplier.js` lines 6–17). -/
def Supplier.new (now : Int) (data : SupplierData) : Supplier where
  id := jsOrNullStr data.id
  mysqlId := jsOrNullInt data.mysqlId
  name := jsOrStr data.name ""
  contact := jsOrStr data.contact ""
  contactPerson := jsOrStr data.contactPerson ""
  phone := jsOrStr data.phone ""
  email := jsOrStr data.email ""
  address := jsOrStr data.address ""
  createdDate := data.createdDate.getD now
  timestamp := jsOrInt data.timestamp now

/-- The document shape of `Supplier#toDocument` / `Supplier.fromDocument`. -/
structure SupplierDoc where
  idField : Option String := none
  mysqlId : Option Int
  name : String
  contact : String
  contactPerson : String
  phone : String
  email : String
  address : String
  createdDate : Int
  timestamp : Int
deriving DecidableEq, Repr

/-- `supplier.toDocument()` (`Supplier.js` lines 42–54): no `_id` key. -/
def Supplier.toDocument (s : Supplier) : SupplierDoc where
  idField := none
  mysqlId := s.mysqlId
  name := s.name
  contact := s.contact
  contactPerson := s.contactPerson
  phone := s.phone
  email := s.email
  address := s.address
  createdDate := s.createdDate
  timestamp := s.timestamp

/-- `Supplier.fromDocument(doc)` (`Supplier.js` lines 61–74). -/
def Supplier.fromDocument (now : Int) (doc : SupplierDoc) : Supplier :=
  Supplier.new now
    { id := doc.idField
      mysqlId := doc.mysqlId
      name := some doc.name
      contact := some doc.contact
      contactPerson := some doc.contactPerson
      phone := some doc.phone
      email := some doc.email
      address := some doc.address
      createdDate := some doc.createdDate
      timestamp := some doc.timestamp }

/-! ## Services

The MongoDB collection is modelled as a `List` of documents; `find` is
`List.filter`, `countDocuments` is the length of the filter, `sort` is a
stable sort by the projection named by `sortBy`, `skip`/`limit` are
`List.drop`/`List.take`, and `insertOne` appends.  Thrown `Error`s are the
`.error` branch of `Except String`. -/

/-- JavaScript truthiness of a possibly-absent number (used for
`if (startDate)`-style guards): absent, `null` and `0` are falsy. -/
def jsTruthyInt (x : Option Int) : Bool :=
  match x with
  | none => false
  | some v => v ≠ 0

/-- The filter object built by `SaleService.getAllSales`
(`SaleService.js` lines 66–78), as a predicate on one document:
`saleDate ≥ startDate`, `saleDate ≤ endDate`, `customerId` exact match,
each conjunct present only when its option is truthy. -/
def SaleService.listFilter (startDate endDate customerId : Option Int)
    (d : SaleDoc) : Bool :=
  (if jsTruthyInt startDate then decide (startDate.getD 0 ≤ d.saleDate) else true) &&
  (if jsTruthyInt endDate then decide (d.saleDate ≤ endDate.getD 0) else true) &&
  (if jsTruthyInt customerId then decide (d.customerId = customerId) else true)

/-- The `$match` filter built by `SaleService.getSalesAnalytics`
(`SaleService.js` lines 262–268), as a predicate on one document. -/
def SaleService.analyticsFilter (startDate endDate : Option Int)
    (d : SaleDoc) : Bool :=
  (if jsTruthyInt startDate then decide (startDate.getD 0 ≤ d.saleDate) else true) &&
  (if jsTruthyInt endDate then decide (d.saleDate ≤ endDate.getD 0) else true)

/-- `.sort({ [sortBy]: sortOrder })`: stable sort of the documents by the
projection `key` named by `sortBy`, descending when `sortOrder` is
negative. -/
def mongoSort {α : Type} (key : α → Int) (sortOrder : Int) (docs : List α) :
    List α :=
  if 0 ≤ sortOrder then docs.insertionSort (fun a b => key a ≤ key b)
  else docs.insertionSort (fun a b => key b ≤ key a)

/-- The `pagination` object of every list response. -/
structure Pagination where
  page : ℕ
  limit : ℕ
  totalCount : ℕ
  totalPages : Int
deriving DecidableEq, Repr

/-- `Math.ceil(totalCount / limit)` over exact arithmetic (meaningful for
`limit ≥ 1`; JavaScript would give `Infinity`/`NaN` at `limit = 0`). -/
def mathCeilDiv (totalCount limit : ℕ) : Int :=
  ⌈(totalCount : ℚ) / (limit : ℚ)⌉

/-- Result envelope of `SaleService.getAllSales`. -/
structure SalesListResult where
  success : Bool
  data : List Sale
  pagination : Pagination
deriving DecidableEq, Repr

/-- `SaleService.getAllSales(options)` (`SaleService.js` lines 53–105).
`sortKey` is the projection named by `options.sortBy`. -/
def SaleService.getAllSales (now : Int) (store : List SaleDoc)
    (page limit : ℕ) (sortKey : SaleDoc → Int) (sortOrder : Int)
    (startDate endDate customerId : Option Int) : SalesListResult :=
  let skip := (page - 1) * limit
  let sales :=
    ((mongoSort sortKey sortOrder
        (store.filter (SaleService.listFilter startDate endDate customerId))).drop
      skip).take limit
  let totalCount :=
    (store.filter (SaleService.listFilter startDate endDate customerId)).length
  { success := true
    data := sales.map (Sale.fromDocument now)
    pagination :=
      { page := page, limit := limit, totalCount := totalCount
        totalPages := mathCeilDiv totalCount limit } }

/-- Result envelope of `CustomerService.getAllCustomers`. -/
structure CustomersListResult where
  success : Bool
  data : List Customer
  pagination : Pagination
deriving DecidableEq, Repr

/-- `CustomerService.getAllCustomers(options)` (`CustomerService.js`
lines 49–81): unfiltered `find({})` and `countDocuments()`. -/
def CustomerService.getAllCustomers (now : Int) (store : List CustomerDoc)
    (page limit : ℕ) (sortKey : CustomerDoc → Int) (sortOrder : Int) :
    CustomersListResult :=
  let skip := (page - 1) * limit
  let customers := ((mongoSort sortKey sortOrder store).drop skip).take limit
  let totalCount := store.length
  { success := true
    data := customers.map (Customer.fromDocument now)
    pagination :=
      { page := page, limit := limit, totalCount := totalCount
        totalPages := mathCeilDiv totalCount limit } }

/-- Success envelope of `createSale` / `updateSale`. -/
structure SaleWriteResult where
  success : Bool
  data : Sale
  message : String
deriving DecidableEq, Repr

/-- `SaleService.createSale(saleData)` (`SaleService.js` lines 23–46).
`newId` models the store-assigned `insertedId`.  Note the source order:
`validate()` runs on the freshly constructed sale and `calculateTotals()`
runs only afterwards, on the way to persistence. -/
def SaleService.createSale (now : Int) (newId : String)
    (store : List SaleDoc) (saleData : SaleData) :
    Except String (List SaleDoc × SaleWriteResult) :=
  let sale := Sale.create now saleData
  let validation := sale.validate
  if validation.isValid then
    let sale := sale.calculateTotals
    let doc := sale.toDocument
    .ok (store ++ [doc],
      { success := true
        data := Sale.fromDocument now { doc with idField := some newId }
        message := "Sale created successfully" })
  else
    .error ("Validation failed: " ++ String.intercalate ", " validation.errors)

/-- `SaleService.updateSale(id, updateData)` (`SaleService.js`
lines 197–229): same validate-then-recalculate order as `createSale`,
then `updateOne({_id: id}, {$set: doc})` followed by `getSaleById(id)`. -/
def SaleService.updateSale (now : Int) (id : String) (store : List SaleDoc)
    (updateData : SaleData) :
    Except String (List SaleDoc × SaleWriteResult) :=
  let sale := Sale.create now updateData
  let validation := sale.validate
  if validation.isValid then
    let sale := sale.calculateTotals
    let doc := sale.toDocument
    if (store.filter (fun d => d.idField = some id)).isEmpty then
      .error "Sale not found"
    else
      let newStore :=
        store.map (fun d =>
          if d.idField = some id then { doc with idField := d.idField } else d)
      match newStore.find? (fun d => d.idField = some id) with
      | none => .error "Sale not found"
      | some d =>
          .ok (newStore,
            { success := true
              data := Sale.fromDocument now d
              message := "Sale updated successfully" })
  else
    .error ("Validation failed: " ++ String.intercalate ", " validation.errors)

/-- The `data` object of a `getSalesAnalytics` response: all four fields
are always present (never absent, never null). -/
structure AnalyticsData where
  totalSales : ℕ
  totalRevenue : ℚ
  totalItemsSold : ℕ
  averageSaleAmount : ℚ
deriving DecidableEq, Repr

/-- Result envelope of `getSalesAnalytics`. -/
structure AnalyticsResult where
  success : Bool
  data : AnalyticsData
deriving DecidableEq, Repr

/-- `SaleService.getSalesAnalytics(options)` (`SaleService.js`
lines 259–298): `$match` then a single `$group` (count, sums, `$avg`);
an empty match yields no group document and `analytics[0]` falls back to
the all-zero object. -/
def SaleService.getSalesAnalytics (store : List SaleDoc)
    (startDate endDate : Option Int) : AnalyticsResult :=
  let matching := store.filter (SaleService.analyticsFilter startDate endDate)
  if matching.isEmpty then
    { success := true
      data :=
        { totalSales := 0, totalRevenue := 0, totalItemsSold := 0
          averageSaleAmount := 0 } }
  else
    { success := true
      data :=
        { totalSales := matching.length
          totalRevenue := matching.foldl (fun acc d => acc + d.totalAmount) 0
          totalItemsSold := matching.foldl (fun acc d => acc + d.saleItems.length) 0
          averageSaleAmount :=
            (matching.foldl (fun acc d => acc + d.totalAmount) 0) /
              (matching.length : ℚ) } }

/-! ## Shared concrete inputs (the spec's scenarios) -/

/-- The scenario item list `[{quantity: 2, unitPrice: 25.00}]`. -/
def itemsQ2P25 : List SaleItemV := [{ quantity := 2, unitPrice := 25 }]

/-- The scenario create-sale payload with `paidAmount: 60.00`. -/
def saleInput60 : SaleData :=
  { saleId := some "SALE001", saleItems := some itemsQ2P25
    taxAmount := some 5, discountAmount := some 2, paidAmount := some 60 }

/-- The scenario create-sale payload with `paidAmount: 40.00`. -/
def saleInput40 : SaleData :=
  { saleId := some "SALE001", saleItems := some itemsQ2P25
    taxAmount := some 5, discountAmount := some 2, paidAmount := some 40 }

/-! ## Helper lemmas -/

/-- Folding `(· + f ·)` from `a` is `a` plus the sum of the images. -/
theorem foldl_add_eq_sum {α M : Type} [AddCommMonoid M] (f : α → M) :
    ∀ (l : List α) (a : M),
      l.foldl (fun acc it => acc + f it) a = a + (l.map f).sum := by
  intro l
  induction l with
  | nil => intro a; simp
  | cons x xs ih => intro a; simp [ih, add_assoc]

/-! ## Claims -/

/-- Per-item sum following claim C1's words: the fallback to
`quantity × unitPrice` applies only to an item whose `subTotal` is
*absent* (to be compared with `itemContribution`, which the code applies
to any falsy `subTotal`, including a present `0`). -/
def specAbsentFallbackSum (items : List SaleItemV) : ℚ :=
  (items.map (fun it =>
    match it.subTotal with
    | none => it.quantity * it.unitPrice
    | some v => v)).sum

/-- C1 (counterexample): for a sale whose single item carries a *present
but zero* `subTotal`, the code's `calculateTotals` uses the
`quantity × unitPrice` fallback (giving 50) whereas the claim's
absent-only fallback gives 0, so the claim as stated is false. -/
theorem calculateTotals_zero_subTotal_counterexample :
    ((Sale.new 0
          { saleItems :=
              some [{ quantity := 2, unitPrice := 25, subTotal := some 0 }] }).calculateTotals).subTotal ≠
        specAbsentFallbackSum [{ quantity := 2, unitPrice := 25, subTotal := some 0 }] ∧
      ((Sale.new 0
          { saleItems :=
              some [{ quantity := 2, unitPrice := 25, subTotal := some 0 }] }).calculateTotals).subTotal
        = 50 ∧
      specAbsentFallbackSum [{ quantity := 2, unitPrice := 25, subTotal := some 0 }] = 0 := by
  refine ⟨?_, ?_, ?_⟩ <;>
    norm_num [Sale.new, Sale.calculateTotals, itemContribution, jsOrQ, specAbsentFallbackSum]

/-- C1 (amended): after `calculateTotals()`, `subTotal` is the sum over
`saleItems` of each item's `subTotal`, falling back to
`quantity × unitPrice` for an item whose `subTotal` is absent *or falsy
(zero)*; `totalAmount = subTotal + taxAmount − discountAmount` and
`changeAmount = paidAmount − totalAmount`; on the scenario input
(`[{quantity:2, unitPrice:25}]`, tax 5, discount 2, paid 60) the results
are 50, 53 and 7. -/
theorem calculateTotals_spec (s : Sale) :
    (s.calculateTotals.subTotal = (s.saleItems.map itemContribution).sum) ∧
      (s.calculateTotals.totalAmount =
        s.calculateTotals.subTotal + s.calculateTotals.taxAmount -
          s.calculateTotals.discountAmount) ∧
      (s.calculateTotals.changeAmount =
        s.calculateTotals.paidAmount - s.calculateTotals.totalAmount) ∧
      ((Sale.create 0 saleInput60).calculateTotals.subTotal = 50 ∧
        (Sale.create 0 saleInput60).calculateTotals.totalAmount = 53 ∧
        (Sale.create 0 saleInput60).calculateTotals.changeAmount = 7) := by
  refine ⟨?_, by simp [Sale.calculateTotals], by simp [Sale.calculateTotals], ?_⟩
  · simp [Sale.calculateTotals, foldl_add_eq_sum]
  · norm_num [Sale.create, Sale.new, Sale.calculateTotals, itemContribution, jsOrQ,
      saleInput60, itemsQ2P25]

/-- C9: `calculateTotals` writes only the three derived fields — every
other field (`saleItems` and their per-item `subTotal`s included, since
the item list is untouched) is preserved — and it is idempotent: a second
call changes nothing. -/
theorem calculateTotals_idempotent_frame (s : Sale) :
    (s.calculateTotals.calculateTotals = s.calculateTotals) ∧
      (s.calculateTotals.saleItems = s.saleItems) ∧
      (s.calculateTotals.taxAmount = s.taxAmount) ∧
      (s.calculateTotals.discountAmount = s.discountAmount) ∧
      (s.calculateTotals.paidAmount = s.paidAmount) ∧
      (s.calculateTotals.id = s.id) ∧
      (s.calculateTotals.mysqlId = s.mysqlId) ∧
      (s.calculateTotals.saleId = s.saleId) ∧
      (s.calculateTotals.customerId = s.customerId) ∧
      (s.calculateTotals.customerContact = s.customerContact) ∧
      (s.calculateTotals.paymentMethod = s.paymentMethod) ∧
      (s.calculateTotals.saleDate = s.saleDate) ∧
      (s.calculateTotals.timestamp = s.timestamp) :=
  ⟨rfl, rfl, rfl, rfl, rfl, rfl, rfl, rfl, rfl, rfl, rfl, rfl, rfl⟩

/-- Whether a service call succeeded (did not throw). -/
def exceptIsOk {ε α : Type} : Except ε α → Bool
  | .ok _ => true
  | .error _ => false

/-- The store contents after a sale write (unchanged reading for a thrown
error, where the service persisted nothing new). -/
def persistedDocs : Except String (List SaleDoc × SaleWriteResult) → List SaleDoc
  | .ok (st, _) => st
  | .error _ => []

/-- A sale document already in the store under id `"id1"` (used to
exercise `updateSale`). -/
def storedDoc60 : SaleDoc :=
  { (Sale.create 0 saleInput60).calculateTotals.toDocument with idField := some "id1" }

/-- Evaluation helper: the scenario `saleId` survives trimming. -/
theorem jsTrim_SALE001 : jsTrim "SALE001" = "SALE001" := rfl

/-- C2 (code bug): `createSale` with items `[{quantity:2, unitPrice:25}]`,
tax 5, discount 2 and `paidAmount` 40 is *accepted* — the call succeeds
and persists a document whose `paidAmount` (40) is strictly below its
`totalAmount` (53), because `validate()` runs before `calculateTotals()`
and therefore judges `paidAmount ≥ totalAmount` against the defaulted
`totalAmount = 0`. -/
theorem createSale_persists_underpaid :
    exceptIsOk (SaleService.createSale 1000 "id1" [] saleInput40) = true ∧
      (persistedDocs (SaleService.createSale 1000 "id1" [] saleInput40)).map
          (fun d => (d.paidAmount, d.totalAmount)) = [(40, 53)] ∧
      ((40 : ℚ) < 53) := by
  refine ⟨rfl, ?_, by norm_num⟩
  have hdocs : persistedDocs (SaleService.createSale 1000 "id1" [] saleInput40) =
      [((Sale.create 1000 saleInput40).calculateTotals).toDocument] := rfl
  rw [hdocs]
  norm_num [Sale.create, Sale.new, Sale.calculateTotals, Sale.toDocument,
    itemContribution, jsOrQ, saleInput40, itemsQ2P25]

/-- C3 (code bug): both `createSale` and `updateSale` run `validate()` on
the freshly constructed sale and only then `calculateTotals()`, so
validation judges caller-supplied aggregates, not the recalculated
totals: on the scenario payload with `paidAmount` 40 the constructed sale
validates as valid while its recalculated version validates as invalid,
and both service calls nevertheless succeed. -/
theorem validate_precedes_calculateTotals :
    ((Sale.create 1000 saleInput40).validate.isValid = true) ∧
      ((Sale.create 1000 saleInput40).calculateTotals.validate.isValid = false) ∧
      (exceptIsOk (SaleService.createSale 1000 "id1" [] saleInput40) = true) ∧
      (exceptIsOk (SaleService.updateSale 1000 "id1" [storedDoc60] saleInput40) = true) := by
  refine ⟨rfl, ?_, rfl, rfl⟩
  norm_num [Sale.create, Sale.new, Sale.calculateTotals, Sale.validate,
    itemContribution, jsOrQ, jsOrStr, saleInput40, itemsQ2P25, jsTrim_SALE001]

/-- C4: `validate()` accumulates: each of the four rules contributes its
error message exactly when violated (membership is independent of the
other rules), `isValid` holds exactly when the error list is empty, and a
failing validation surfaces at the service boundary as one thrown error
joining all messages with `", "`. -/
theorem validate_accumulates (s : Sale) :
    (("Sale ID is required" ∈ s.validate.errors) ↔ jsTrim s.saleId = "") ∧
      (("Sale must have at least one item" ∈ s.validate.errors) ↔ s.saleItems = []) ∧
      (("Total amount cannot be negative" ∈ s.validate.errors) ↔ s.totalAmount < 0) ∧
      (("Paid amount must be greater than or equal to total amount" ∈ s.validate.errors) ↔
        s.paidAmount < s.totalAmount) ∧
      (s.validate.isValid = true ↔ s.validate.errors = []) ∧
      (∀ (now : Int) (newId : String) (store : List SaleDoc) (d : SaleData),
        (Sale.create now d).validate.isValid = false →
          SaleService.createSale now newId store d =
            .error ("Validation failed: " ++
              String.intercalate ", " (Sale.create now d).validate.errors)) := by
  refine ⟨?_, ?_, ?_, ?_, ?_, ?_⟩
  · by_cases h1 : jsTrim s.saleId = "" <;> simp [Sale.validate, h1]
  · by_cases h2 : s.saleItems = [] <;> simp [Sale.validate, h2]
  · by_cases h3 : s.totalAmount < 0 <;> simp [Sale.validate, h3]
  · by_cases h4 : s.paidAmount < s.totalAmount <;> simp [Sale.validate, h4]
  · simp [Sale.validate]
  · intro now newId store d h
    simp [SaleService.createSale, h]

/-- JavaScript falsiness of a possibly-absent monetary value. -/
def falsyQ (x : Option ℚ) : Prop := x = none ∨ x = some 0

/-- C10: `Sale.create` coerces each omitted-or-falsy monetary field to 0,
defaults `saleItems` to `[]` and `saleDate` to the construction time,
always stamps `timestamp` with the construction-time clock (ignoring any
caller-supplied value), and derives no totals at construction (on the
scenario payload the stored `subTotal`/`totalAmount` stay 0 even though
the items would sum to 50). -/
theorem create_defaults :
    (∀ (d : SaleData) (now : Int), falsyQ d.subTotal → (Sale.create now d).subTotal = 0) ∧
      (∀ (d : SaleData) (now : Int), falsyQ d.taxAmount → (Sale.create now d).taxAmount = 0) ∧
      (∀ (d : SaleData) (now : Int), falsyQ d.discountAmount →
        (Sale.create now d).discountAmount = 0) ∧
      (∀ (d : SaleData) (now : Int), falsyQ d.totalAmount → (Sale.create now d).totalAmount = 0) ∧
      (∀ (d : SaleData) (now : Int), falsyQ d.paidAmount → (Sale.create now d).paidAmount = 0) ∧
      (∀ (d : SaleData) (now : Int), falsyQ d.changeAmount →
        (Sale.create now d).changeAmount = 0) ∧
      (∀ (d : SaleData) (now : Int), d.saleItems = none → (Sale.create now d).saleItems = []) ∧
      (∀ (d : SaleData) (now : Int), d.saleDate = none → (Sale.create now d).saleDate = now) ∧
      (∀ (d : SaleData) (now : Int), (Sale.create now d).timestamp = now) ∧
      ((Sale.create 0 saleInput60).subTotal = 0 ∧ (Sale.create 0 saleInput60).totalAmount = 0) := by
  refine ⟨?_, ?_, ?_, ?_, ?_, ?_, ?_, ?_, ?_, ?_, ?_⟩
  all_goals
    try (intro d now h; rcases h with h | h <;> simp [Sale.create, Sale.new, jsOrQ, h])
  · intro d now h; simp [Sale.create, Sale.new, h]
  · intro d now h; simp [Sale.create, Sale.new, h]
  · intro d now; simp [Sale.create, Sale.new, jsOrInt]
  · norm_num [Sale.create, Sale.new, jsOrQ, saleInput60]
  · norm_num [Sale.create, Sale.new, jsOrQ, saleInput60]

/-- C6: `getSalesAnalytics` filters with the same inclusive date-range
predicate as the list query (`getAllSales` with no customer filter) and
returns the count of matching sales, the sum of their `totalAmount`, the
sum of their `saleItems` lengths, and (over a non-empty match) the
arithmetic mean of their `totalAmount`. -/
theorem getSalesAnalytics_spec (store : List SaleDoc) (startDate endDate : Option Int) :
    (∀ d : SaleDoc,
        SaleService.analyticsFilter startDate endDate d =
          SaleService.listFilter startDate endDate none d) ∧
      ((SaleService.getSalesAnalytics store startDate endDate).data.totalSales =
        (store.filter (SaleService.analyticsFilter startDate endDate)).length) ∧
      ((SaleService.getSalesAnalytics store startDate endDate).data.totalRevenue =
        ((store.filter (SaleService.analyticsFilter startDate endDate)).map
          SaleDoc.totalAmount).sum) ∧
      ((SaleService.getSalesAnalytics store startDate endDate).data.totalItemsSold =
        ((store.filter (SaleService.analyticsFilter startDate endDate)).map
          (fun d => d.saleItems.length)).sum) ∧
      (store.filter (SaleService.analyticsFilter startDate endDate) ≠ [] →
        (SaleService.getSalesAnalytics store startDate endDate).data.averageSaleAmount =
          ((store.filter (SaleService.analyticsFilter startDate endDate)).map
              SaleDoc.totalAmount).sum /
            ((store.filter (SaleService.analyticsFilter startDate endDate)).length : ℚ)) := by
  refine ⟨?_, ?_, ?_, ?_, ?_⟩
  · intro d
    simp [SaleService.analyticsFilter, SaleService.listFilter, jsTruthyInt]
  all_goals
    rcases h : store.filter (SaleService.analyticsFilter startDate endDate) with _ | ⟨d, ds⟩ <;>
      simp [SaleService.getSalesAnalytics, h, foldl_add_eq_sum]

/-- C7: when the date-range filter matches no stored sale,
`getSalesAnalytics` returns a successful result whose `data` has all four
fields present and equal to zero. -/
theorem getSalesAnalytics_empty (store : List SaleDoc) (startDate endDate : Option Int)
    (h : store.filter (SaleService.analyticsFilter startDate endDate) = []) :
    SaleService.getSalesAnalytics store startDate endDate =
      { success := true
        data :=
          { totalSales := 0, totalRevenue := 0, totalItemsSold := 0
            averageSaleAmount := 0 } } := by
  simp [SaleService.getSalesAnalytics, h]

/-- Witness for `getSalesAnalytics_empty`: the empty store matches
nothing, and the analytics call returns the all-zero success payload. -/
theorem getSalesAnalytics_empty_witness :
    SaleService.getSalesAnalytics [] (some 1000) (some 2000) =
      { success := true
        data :=
          { totalSales := 0, totalRevenue := 0, totalItemsSold := 0
            averageSaleAmount := 0 } } :=
  getSalesAnalytics_empty [] (some 1000) (some 2000) rfl

/-- A present string survives `x || ''`. -/
theorem jsOrStr_some_empty_default (t : String) : jsOrStr (some t) "" = t := by
  simp only [jsOrStr]
  split <;> simp_all

/-- A present number survives `x || 0`. -/
theorem jsOrQ_some_zero_default (v : ℚ) : jsOrQ (some v) 0 = v := by
  simp only [jsOrQ]
  split <;> simp_all

/-- `x || null` on integers keeps any value other than a present `0`. -/
theorem jsOrNullInt_of_ne (x : Option Int) (h : x ≠ some 0) : jsOrNullInt x = x := by
  rcases x with _ | v
  · rfl
  · simp only [jsOrNullInt]
    split <;> simp_all

/-- `x || null` on an absent string is `null`. -/
theorem jsOrNullStr_none : jsOrNullStr none = none := rfl

/-- `x || null` on strings keeps any value other than a present `""`. -/
theorem jsOrNullStr_of_ne (x : Option String) (h : x ≠ some "") : jsOrNullStr x = x := by
  rcases x with _ | v
  · rfl
  · simp only [jsOrNullStr]
    split <;> simp_all

/-- A present non-zero integer survives `x || now`. -/
theorem jsOrInt_some_of_ne (t d : Int) (h : t ≠ 0) : jsOrInt (some t) d = t := by
  simp only [jsOrInt]
  split <;> simp_all

/-- C8 (counterexample): the round-trip does not reproduce `id` —
`toDocument` omits `_id`, so a Customer constructed with `id: "c1"` comes
back from `fromDocument(toDocument(·))` with `id: null`, differing from
the original. -/
theorem roundtrip_drops_id_counterexample :
    Customer.fromDocument 0
        (Customer.new 0 { id := some "c1", contact := some "Jo" }).toDocument ≠
      Customer.new 0 { id := some "c1", contact := some "Jo" } := by
  decide

/-- C8 (amended): for Customer, Supplier and Sale,
`fromDocument(toDocument(entity))` reproduces every attribute *except*
`id`, which is reset to null because `toDocument` omits `_id` — provided
the fields that the constructor re-defaults on falsy values are not falsy
(numeric `mysqlId`/`customerId` not a present 0, Customer's nullable
`saleId` not a present `""`, `timestamp` not 0). -/
theorem fromDocument_toDocument_roundtrip (now : Int)
    (s : Sale) (c : Customer) (u : Supplier)
    (hs1 : s.mysqlId ≠ some 0) (hs2 : s.customerId ≠ some 0) (hs3 : s.timestamp ≠ 0)
    (hc1 : c.mysqlId ≠ some 0) (hc2 : c.saleId ≠ some "") (hc3 : c.timestamp ≠ 0)
    (hu1 : u.mysqlId ≠ some 0) (hu2 : u.timestamp ≠ 0) :
    Sale.fromDocument now s.toDocument = { s with id := none } ∧
      Customer.fromDocument now c.toDocument = { c with id := none } ∧
      Supplier.fromDocument now u.toDocument = { u with id := none } := by
  refine ⟨?_, ?_, ?_⟩
  · cases s
    simp_all [Sale.fromDocument, Sale.toDocument, Sale.new, jsOrNullStr_none,
      jsOrNullInt_of_ne, jsOrStr_some_empty_default, jsOrQ_some_zero_default,
      jsOrInt_some_of_ne]
  · cases c
    simp_all [Customer.fromDocument, Customer.toDocument, Customer.new, jsOrNullStr_none,
      jsOrNullInt_of_ne, jsOrNullStr_of_ne, jsOrStr_some_empty_default,
      jsOrInt_some_of_ne]
  · cases u
    simp_all [Supplier.fromDocument, Supplier.toDocument, Supplier.new, jsOrNullStr_none,
      jsOrNullInt_of_ne, jsOrStr_some_empty_default, jsOrInt_some_of_ne]

/-- Concrete sale for the round-trip witness. -/
def saleW : Sale :=
  Sale.new 5
    { saleId := some "S1", mysqlId := some 3, customerId := some 4
      paidAmount := some 10, timestamp := some 7 }

/-- Concrete customer for the round-trip witness. -/
def custW : Customer :=
  Customer.new 5 { mysqlId := some 3, saleId := some "SL", contact := some "Jo"
                   timestamp := some 7 }

/-- Concrete supplier for the round-trip witness. -/
def suppW : Supplier :=
  Supplier.new 5 { mysqlId := some 3, name := some "N", contact := some "C"
                   timestamp := some 7 }

/-- Witness for `fromDocument_toDocument_roundtrip` at concrete
entities. -/
theorem fromDocument_toDocument_roundtrip_witness :
    Customer.fromDocument 9 custW.toDocument = { custW with id := none } :=
  (fromDocument_toDocument_roundtrip 9 saleW custW suppW
      (by decide) (by decide) (by decide) (by decide) (by decide) (by decide)
      (by decide) (by decide)).2.1

/-- For a positive divisor, the exact rational ceiling equals the usual
natural-number formula `(n + l - 1) / l`. -/
theorem mathCeilDiv_eq_natFormula (n l : ℕ) (hl : 1 ≤ l) :
    mathCeilDiv n l = (((n + l - 1) / l : ℕ) : ℤ) := by
  have hl0 : 0 < l := hl
  have hlq : (0 : ℚ) < (l : ℚ) := by exact_mod_cast hl0
  set k := (n + l - 1) / l with hk
  have hB : k * l ≤ n + l - 1 := Nat.div_mul_le_self _ _
  have hA : n ≤ l * k := by
    rcases Nat.eq_zero_or_pos n with h0 | h0
    · simp [h0]
    · by_contra hlt
      push_neg at hlt
      rw [mul_comm] at hlt
      have h2 : (k + 1) * l ≤ n + l - 1 := by
        have hmul : (k + 1) * l = k * l + l := by ring
        omega
      have h3 : k + 1 ≤ k := by
        rw [hk]
        exact (Nat.le_div_iff_mul_le hl0).2 h2
      omega
  rw [mathCeilDiv, Int.ceil_eq_iff]
  have hcast : ((n + l - 1 : ℕ) : ℚ) = (n : ℚ) + l - 1 := by
    rw [Nat.cast_sub (by omega : 1 ≤ n + l)]
    push_cast
    ring
  constructor
  · have hB' : ((k * l : ℕ) : ℚ) ≤ ((n + l - 1 : ℕ) : ℚ) := by exact_mod_cast hB
    rw [hcast] at hB'
    push_cast at hB'
    have h : ((k : ℚ) - 1) * l < n := by nlinarith
    calc ((k : ℤ) : ℚ) - 1 = (k : ℚ) - 1 := by push_cast; ring
      _ < (n : ℚ) / l := (lt_div_iff₀ hlq).2 h
  · have hA' : (n : ℚ) ≤ (k : ℚ) * l := by
      have : ((n : ℕ) : ℚ) ≤ ((l * k : ℕ) : ℚ) := by exact_mod_cast hA
      push_cast at this
      linarith
    rw [div_le_iff₀ hlq]
    push_cast
    linarith

/-- C5: for every list query (`getAllSales` and `getAllCustomers`) with
`page ≥ 1` and `limit ≥ 1`: the returned page is exactly the sorted
filtered set with the first `(page−1)×limit` documents skipped and at
most `limit` taken (so its length never exceeds `limit`); the reported
pagination is `{page, limit, totalCount, totalPages}` where `totalCount`
counts the store under the *same* filter predicate used to select the
page (independent of skip/limit) and
`totalPages = ceil(totalCount/limit) = (totalCount + limit − 1) / limit`. -/
theorem list_pagination_spec (now : Int) (storeS : List SaleDoc)
    (storeC : List CustomerDoc) (page limit : ℕ)
    (kS : SaleDoc → Int) (kC : CustomerDoc → Int) (ord : Int)
    (startDate endDate customerId : Option Int)
    (hpage : 1 ≤ page) (hlimit : 1 ≤ limit) :
    ((SaleService.getAllSales now storeS page limit kS ord startDate endDate
          customerId).data =
        (((mongoSort kS ord
                (storeS.filter (SaleService.listFilter startDate endDate customerId))).drop
              ((page - 1) * limit)).take limit).map (Sale.fromDocument now)) ∧
      ((SaleService.getAllSales now storeS page limit kS ord startDate endDate
          customerId).data.length ≤ limit) ∧
      ((SaleService.getAllSales now storeS page limit kS ord startDate endDate
          customerId).pagination =
        { page := page, limit := limit
          totalCount :=
            (storeS.filter (SaleService.listFilter startDate endDate customerId)).length
          totalPages :=
            mathCeilDiv
              (storeS.filter (SaleService.listFilter startDate endDate customerId)).length
              limit }) ∧
      ((SaleService.getAllSales now storeS page limit kS ord startDate endDate
          customerId).pagination.totalPages =
        ((((storeS.filter (SaleService.listFilter startDate endDate customerId)).length +
              limit - 1) / limit : ℕ) : ℤ)) ∧
      ((CustomerService.getAllCustomers now storeC page limit kC ord).data =
        (((mongoSort kC ord storeC).drop ((page - 1) * limit)).take limit).map
          (Customer.fromDocument now)) ∧
      ((CustomerService.getAllCustomers now storeC page limit kC ord).data.length ≤ limit) ∧
      ((CustomerService.getAllCustomers now storeC page limit kC ord).pagination =
        { page := page, limit := limit, totalCount := storeC.length
          totalPages := mathCeilDiv storeC.length limit }) ∧
      ((CustomerService.getAllCustomers now storeC page limit kC ord).pagination.totalPages =
        (((storeC.length + limit - 1) / limit : ℕ) : ℤ)) := by
  refine ⟨rfl, ?_, rfl, ?_, rfl, ?_, rfl, ?_⟩
  · simp only [SaleService.getAllSales, List.length_map]
    exact List.length_take_le _ _
  · exact mathCeilDiv_eq_natFormula _ limit hlimit
  · simp only [CustomerService.getAllCustomers, List.length_map]
    exact List.length_take_le _ _
  · exact mathCeilDiv_eq_natFormula _ limit hlimit

/-- Witness for `list_pagination_spec` at a concrete query. -/
theorem list_pagination_spec_witness :
    (SaleService.getAllSales 0 [storedDoc60] 2 10 (fun d => d.timestamp) (-1)
        none none none).data.length ≤ 10 :=
  (list_pagination_spec 0 [storedDoc60] [] 2 10 (fun d => d.timestamp)
      (fun c => c.timestamp) (-1) none none none (by norm_num) (by norm_num)).2.1

end WebPOS
